/- Verification of the AppbuildHug blueprint generator (src/app.py).

   The Python module is embedded shallowly:
   the module-level configuration (GEMINI_AVAILABLE, GEMINI_API_KEY) becomes an
   explicit Config record; the external Gemini client becomes an explicit
   environment Env whose `call` field maps a call sequence number, a model name
   and a prompt to either a response text (Except.ok) or a raised exception
   rendered as its message string (Except.error), and whose client field
   models the possible failure of genai.Client construction. Remote calls are
   numbered so that the order and number of outbound calls is observable: each
   embedded operation takes the current call counter and reports the list of
   models it actually called together with the next counter value. -/
import Mathlib

set_option maxRecDepth 16384

namespace AppbuildHug

/-- GEMINI_AVAILABLE and GEMINI_API_KEY: process-wide configuration read at
startup in src/app.py (lines 20-27). An unset key is the empty string. -/
structure Config where
  gemini_available : Bool
  gemini_api_key : String
deriving DecidableEq, Repr

/-- The external Gemini service, as seen through genai: constructing the
client may raise (modelled by `client`), and each generate_content
call - identified by its global sequence number, the model name and the
prompt - either returns a text or raises, the exception rendered as a
message string. -/
structure Env where
  client : Except String Unit
  call : Nat → String → String → Except String String

def DEMO_BLUEPRINT_PRE : String :=
  "\n# Project Blueprint: "

def DEMO_BLUEPRINT_POST : String :=
  "\n\n## Tech Stack\n- **Frontend**: React 19 + TypeScript + Tailwind CSS\n- **Backend**: Next.js 15 App Router + tRPC\n- **Database**: PostgreSQL with Drizzle ORM\n- **Authentication**: NextAuth.js with OAuth providers\n- **AI Integration**: OpenAI API / Anthropic Claude\n- **Deployment**: Vercel (Frontend) + Railway (Backend)\n\n## Architecture Overview\n```\n┌─────────────┐     ┌─────────────┐     ┌─────────────┐\n│   Frontend  │────▶│   Backend   │────▶│  Database   │\n│   (React)   │     │  (Next.js)  │     │ (PostgreSQL)│\n└─────────────┘     └─────────────┘     └─────────────┘\n       │                   │                   │\n       └───────────────────┴───────────────────┘\n                          │\n                   ┌──────▼──────┐\n                   │  AI Service │\n                   │  (OpenAI)   │\n                   └─────────────┘\n```\n\n## Key Files Structure\n```\nproject-root/\n├── app/\n│   ├── layout.tsx\n│   ├── page.tsx\n│   └── api/\n│       └── trpc/\n│           └── [trpc]/\n├── components/\n│   ├── ui/\n│   └── features/\n├── server/\n│   ├── routers/\n│   └── db/\n├── lib/\n│   └── utils.ts\n└── package.json\n```\n\n## Next Steps\n1. Initialize Next.js project with TypeScript\n2. Set up Drizzle ORM and database schema\n3. Configure tRPC endpoints\n4. Implement authentication flow\n5. Build core features iteratively\n"

def GEMINI_PROMPT_PRE : String :=
  "Create a concise full-stack project blueprint for: "

def GEMINI_PROMPT_SUF : String :=
  "\n\nInclude:\n1. Tech stack recommendations\n2. Architecture overview (ASCII diagram preferred)\n3. Key files structure\n4. Implementation steps\n\nFormat as markdown. Be practical and production-ready."

def generate_animation_html : String :=
  "\n    <!DOCTYPE html>\n    <html>\n    <head>\n        <meta charset=\"UTF-8\">\n        <meta name=\"viewport\" content=\"width=device-width, initial-scale=1.0, user-scalable=no\">\n        <script src=\"https://cdnjs.cloudflare.com/ajax/libs/animejs/3.2.2/anime.min.js\"></script>\n        <style>\n            * \x7b\n                margin: 0;\n                padding: 0;\n                box-sizing: border-box;\n            \x7d\n\n            body \x7b\n                background: #0a0015;\n                overflow: hidden;\n                font-family: -apple-system, BlinkMacSystemFont, \x27Segoe UI\x27, sans-serif;\n                touch-action: none;\n            \x7d\n\n            #canvas-container \x7b\n                width: 100%;\n                height: clamp(300px, 50vh, 450px);\n                position: relative;\n                background: radial-gradient(circle at center, #1a0035 0%, #0a0015 100%);\n                border-radius: 12px;\n                overflow: hidden;\n                cursor: pointer;\n                min-height: 300px;\n                max-height: 450px;\n            \x7d\n            \n            #central-core \x7b\n                position: absolute;\n                top: 50%;\n                left: 50%;\n                transform: translate(-50%, -50%);\n                width: 80px;\n                height: 80px;\n                background: radial-gradient(circle, #a855f7 0%, #3b82f6 50%, #0a0015 100%);\n                border-radius: 50%;\n                box-shadow: 0 0 40px rgba(168, 85, 247, 0.6),\n                            0 0 80px rgba(59, 130, 246, 0.4),\n                            inset 0 0 20px rgba(255, 255, 255, 0.1);\n                z-index: 10;\n            \x7d\n            \n            .orb \x7b\n                position: absolute;\n                border-radius: 50%;\n                box-shadow: 0 0 20px currentColor;\n                display: flex;\n                align-items: center;\n                justify-content: center;\n                font-size: 10px;\n                font-weight: bold;\n                color: rgba(255, 255, 255, 0.9);\n                text-shadow: 0 0 10px currentColor;\n                user-select: none;\n            \x7d\n            \n            .orb-frontend \x7b background: linear-gradient(135deg, #10b981, #059669); color: #10b981; width: clamp(35px, 8vw, 50px); height: clamp(35px, 8vw, 50px); \x7d\n            .orb-backend \x7b background: linear-gradient(135deg, #8b5cf6, #7c3aed); color: #8b5cf6; width: clamp(40px, 9vw, 55px); height: clamp(40px, 9vw, 55px); \x7d\n            .orb-db \x7b background: linear-gradient(135deg, #f59e0b, #d97706); color: #f59e0b; width: clamp(34px, 7.5vw, 48px); height: clamp(34px, 7.5vw, 48px); \x7d\n            .orb-ai \x7b background: linear-gradient(135deg, #3b82f6, #2563eb); color: #3b82f6; width: clamp(37px, 8.2vw, 52px); height: clamp(37px, 8.2vw, 52px); \x7d\n            .orb-auth \x7b background: linear-gradient(135deg, #ec4899, #db2777); color: #ec4899; width: clamp(33px, 7.2vw, 46px); height: clamp(33px, 7.2vw, 46px); \x7d\n            .orb-api \x7b background: linear-gradient(135deg, #06b6d4, #0891b2); color: #06b6d4; width: clamp(35px, 7.7vw, 49px); height: clamp(35px, 7.7vw, 49px); \x7d\n            .orb-deploy \x7b background: linear-gradient(135deg, #6366f1, #4f46e5); color: #6366f1; width: clamp(36px, 8vw, 51px); height: clamp(36px, 8vw, 51px); \x7d\n            .orb-test \x7b background: linear-gradient(135deg, #14b8a6, #0d9488); color: #14b8a6; width: clamp(33px, 7.3vw, 47px); height: clamp(33px, 7.3vw, 47px); \x7d\n\n            @media (max-width: 768px) \x7b\n                .orb \x7b\n                    font-size: 8px !important;\n                \x7d\n            \x7d\n\n            @media (max-width: 480px) \x7b\n                .orb \x7b\n                    font-size: 7px !important;\n                \x7d\n            \x7d\n        </style>\n    </head>\n    <body>\n        <div id=\"canvas-container\" aria-label=\"Animated project architecture visualization\">\n            <div id=\"central-core\"></div>\n            <!\x2d\x2d Orbs will be dynamically created \x2d\x2d>\n        </div>\n        \n        <script>\n            console.log(\"Floating free... 🚀\");\n            \n            if (typeof anime === \x27undefined\x27) \x7b\n                console.error(\"Anime.js not loaded\");\n            \x7d else \x7b\n                const container = document.getElementById(\x27canvas-container\x27);\n                const core = document.getElementById(\x27central-core\x27);\n                const centerX = container.offsetWidth / 2;\n                const centerY = container.offsetHeight / 2;\n                \n                // Responsive orb configurations\n                const containerWidth = container.offsetWidth;\n                const containerHeight = container.offsetHeight;\n                const minDimension = Math.min(containerWidth, containerHeight);\n                const scale = Math.min(minDimension / 400, 1); // Scale based on 400px reference\n\n                // Orb configurations: [label, class, radius, duration, delay, direction]\n                const orbConfigs = [\n                    [\x27FE\x27, \x27orb-frontend\x27, 120 * scale, 6000, 0, 1],\n                    [\x27BE\x27, \x27orb-backend\x27, 140 * scale, 7500, 300, -1],\n                    [\x27DB\x27, \x27orb-db\x27, 100 * scale, 5000, 600, 1],\n                    [\x27AI\x27, \x27orb-ai\x27, 160 * scale, 8500, 900, -1],\n                    [\x27Auth\x27, \x27orb-auth\x27, 110 * scale, 5500, 1200, 1],\n                    [\x27API\x27, \x27orb-api\x27, 130 * scale, 7000, 1500, -1],\n                    [\x27Deploy\x27, \x27orb-deploy\x27, 150 * scale, 8000, 1800, 1],\n                    [\x27Test\x27, \x27orb-test\x27, 105 * scale, 5800, 2100, -1]\n                ];\n                \n                const orbs = [];\n                \n                // Create orbs\n                orbConfigs.forEach(([label, className, radius, duration, delay, direction], index) => \x7b\n                    const orb = document.createElement(\x27div\x27);\n                    orb.className = `orb $\x7bclassName\x7d`;\n                    orb.textContent = label;\n                    orb.style.left = `$\x7bcenterX\x7dpx`;\n                    orb.style.top = `$\x7bcenterY\x7dpx`;\n                    container.appendChild(orb);\n                    orbs.push(\x7b element: orb, radius, duration, delay, direction, angle: (index * 45) * Math.PI / 180 \x7d);\n                \x7d);\n                \n                // Animate orbiting\n                function animateOrbits() \x7b\n                    orbs.forEach((\x7b element, radius, duration, delay, direction, angle \x7d) => \x7b\n                        anime(\x7b\n                            targets: element,\n                            translateX: [\n                                \x7b value: () => Math.cos(angle) * radius \x7d,\n                                \x7b value: () => Math.cos(angle + direction * Math.PI * 2) * radius \x7d\n                            ],\n                            translateY: [\n                                \x7b value: () => Math.sin(angle) * radius \x7d,\n                                \x7b value: () => Math.sin(angle + direction * Math.PI * 2) * radius \x7d\n                            ],\n                            rotate: direction * 360,\n                            scale: [\n                                \x7b value: 0.8, duration: duration / 2 \x7d,\n                                \x7b value: 1.2, duration: duration / 2 \x7d\n                            ],\n                            opacity: [\n                                \x7b value: 0.7, duration: duration / 3 \x7d,\n                                \x7b value: 1, duration: duration / 3 \x7d,\n                                \x7b value: 0.7, duration: duration / 3 \x7d\n                            ],\n                            duration: duration,\n                            delay: delay,\n                            easing: \x27linear\x27,\n                            loop: true\n                        \x7d);\n                    \x7d);\n                \x7d\n                \n                // Central core breathing animation\n                anime(\x7b\n                    targets: core,\n                    scale: [\n                        \x7b value: 1, duration: 2000 \x7d,\n                        \x7b value: 1.15, duration: 2000 \x7d\n                    ],\n                    opacity: [\n                        \x7b value: 0.9, duration: 2000 \x7d,\n                        \x7b value: 1, duration: 2000 \x7d\n                    ],\n                    loop: true,\n                    easing: \x27easeInOutSine\x27\n                \x7d);\n                \n                // Start orbiting animation\n                animateOrbits();\n                \n                // Double-click burst effect\n                let burstTimeout;\n                container.addEventListener(\x27dblclick\x27, () => \x7b\n                    // Clear any existing burst\n                    if (burstTimeout) clearTimeout(burstTimeout);\n\n                    // Random spin and scale burst\n                    orbs.forEach(orb => \x7b\n                        anime(\x7b\n                            targets: orb.element,\n                            rotate: () => anime.random(360, 720),\n                            scale: [1, 1.5, 1],\n                            duration: 800,\n                            easing: \x27easeOutElastic(1, .8)\x27\n                        \x7d);\n                    \x7d);\n\n                    // Core pulse\n                    anime(\x7b\n                        targets: core,\n                        scale: [1, 1.3, 1],\n                        duration: 600,\n                        easing: \x27easeOutElastic(1, .6)\x27\n                    \x7d);\n                \x7d);\n\n                // Handle window resize with debouncing\n                let resizeTimeout;\n                window.addEventListener(\x27resize\x27, () => \x7b\n                    clearTimeout(resizeTimeout);\n                    resizeTimeout = setTimeout(() => \x7b\n                        // Recalculate center and scale on resize\n                        const newCenterX = container.offsetWidth / 2;\n                        const newCenterY = container.offsetHeight / 2;\n                        const minDimension = Math.min(container.offsetWidth, container.offsetHeight);\n                        const newScale = Math.min(minDimension / 400, 1);\n\n                        // Update orb positions and sizes\n                        orbs.forEach((orb, index) => \x7b\n                            const newRadius = orb.radius * newScale;\n                            orb.element.style.left = `$\x7bnewCenterX\x7dpx`;\n                            orb.element.style.top = `$\x7bnewCenterY\x7dpx`;\n\n                            // Update animation with new radius\n                            anime(\x7b\n                                targets: orb.element,\n                                translateX: [\n                                    \x7b value: () => Math.cos(orb.angle) * newRadius \x7d,\n                                    \x7b value: () => Math.cos(orb.angle + orb.direction * Math.PI * 2) * newRadius \x7d\n                                ],\n                                translateY: [\n                                    \x7b value: () => Math.sin(orb.angle) * newRadius \x7d,\n                                    \x7b value: () => Math.sin(orb.angle + orb.direction * Math.PI * 2) * newRadius \x7d\n                                ],\n                                duration: orb.duration,\n                                easing: \x27linear\x27,\n                                loop: true\n                            \x7d);\n                        \x7d);\n                    \x7d, 250); // Debounce resize events\n                \x7d);\n\n                // Touch event handling for mobile\n                let touchStartTime = 0;\n                container.addEventListener(\x27touchstart\x27, (e) => \x7b\n                    touchStartTime = Date.now();\n                \x7d);\n\n                container.addEventListener(\x27touchend\x27, (e) => \x7b\n                    const touchEndTime = Date.now();\n                    const touchDuration = touchEndTime - touchStartTime;\n\n                    // Treat short touches as clicks, long touches as potential gestures\n                    if (touchDuration < 300) \x7b\n                        // Trigger burst effect for touch\n                        const burstEvent = new Event(\x27dblclick\x27);\n                        container.dispatchEvent(burstEvent);\n                    \x7d\n                \x7d);\n            \x7d\n        </script>\n    </body>\n    </html>\n    "

/-- Python str.strip() with no argument: remove whitespace from both ends,
embedded structurally on the character list. -/
def pyStrip (s : String) : String :=
  ⟨((s.data.dropWhile Char.isWhitespace).reverse.dropWhile Char.isWhitespace).reverse⟩

/-- Python s[:n] on a string: its first n characters. -/
def pyTake (s : String) (n : Nat) : String :=
  ⟨s.data.take n⟩

/-- generate_blueprint_demo (src/app.py lines 355-358): DEMO_BLUEPRINT with
the single placeholder project_name replaced by the stripped idea truncated
to 50 characters, or a placeholder title when the stripped idea is empty. -/
def generate_blueprint_demo (project_idea : String) : String :=
  let project_name :=
    if pyStrip project_idea = "" then "Your Dream Project" else pyTake (pyStrip project_idea) 50
  DEMO_BLUEPRINT_PRE ++ project_name ++ DEMO_BLUEPRINT_POST

/-- The ordered model candidate list (src/app.py lines 374-377). -/
def model_names : List String :=
  ["gemini-1.5-flash", "gemini-1.5-pro"]

/-- The prompt f-string (src/app.py lines 383-391): the idea embedded verbatim. -/
def gemini_prompt (project_idea : String) : String :=
  GEMINI_PROMPT_PRE ++ project_idea ++ GEMINI_PROMPT_SUF

/-- Python str() applied to the last_error variable, which is None until the
first failed call and the most recent exception afterwards. -/
def pyStr : Option String → String
  | none => "None"
  | some e => e

/-- Result of the model loop of src/app.py lines 393-410: the response (None
if every candidate raised), the final last_error, the models actually called
in order, and the call counter after the loop. -/
structure TryResult where
  response : Option String
  last_error : Option String
  calls : List String
  next : Nat
deriving DecidableEq, Repr

/-- The loop of src/app.py lines 393-410: try each model in order, breaking
on the first success, remembering the last exception otherwise. -/
def tryModels (env : Env) (prompt : String) :
    List String → Nat → Option String → TryResult
  | [], k, le => ⟨none, le, [], k⟩
  | m :: rest, k, le =>
    match env.call k m prompt with
    | Except.ok t => ⟨some t, le, [m], k + 1⟩
    | Except.error e =>
      let r := tryModels env prompt rest (k + 1) (some e)
      ⟨r.response, r.last_error, m :: r.calls, r.next⟩

/-- Result of one generate_blueprint_gemini invocation: the returned document,
the models called in order, and the call counter afterwards. -/
structure GenResult where
  text : String
  calls : List String
  next : Nat
deriving DecidableEq, Repr

/-- generate_blueprint_gemini (src/app.py lines 361-422): precondition checks,
client construction, the model loop, and the all-failed fallback message;
the outer try/except renders any raised exception as a document. -/
def generate_blueprint_gemini (cfg : Config) (env : Env) (project_idea : String)
    (k : Nat) : GenResult :=
  if !cfg.gemini_available then
    ⟨"❌ Gemini API not available. Install google-genai package.", [], k⟩
  else if cfg.gemini_api_key = "" then
    ⟨"❌ GEMINI_API_KEY not set. Please configure it in Hugging Face Spaces secrets.", [], k⟩
  else
    match env.client with
    | Except.error e =>
      ⟨"❌ Error generating blueprint: " ++ e ++ "\n\nFalling back to demo mode...\n\n"
          ++ generate_blueprint_demo project_idea, [], k⟩
    | Except.ok _ =>
      let r := tryModels env (gemini_prompt project_idea) model_names k none
      match r.response with
      | some t => ⟨t, r.calls, r.next⟩
      | none =>
        ⟨"❌ No available Gemini models found or generation failed. Last error: "
            ++ pyStr r.last_error
            ++ "\n\n💡 Tip: Check your API key and quota."
            ++ "\n\nFalling back to demo mode...\n\n"
            ++ generate_blueprint_demo project_idea,
          r.calls, r.next⟩

/-- Result of process_project: the pair returned to the UI plus the observable
remote-call trace. -/
structure ProcResult where
  animation_html : String
  blueprint : String
  calls : List String
  next : Nat
deriving DecidableEq, Repr

/-- process_project (src/app.py lines 425-436): always the fixed animation
HTML; the Gemini path only when the flag is set, the library is available and
the key is non-empty (Python string truthiness), else the demo template. -/
def process_project (cfg : Config) (env : Env) (project_idea : String)
    (use_gemini : Bool) (k : Nat) : ProcResult :=
  let animation_html := generate_animation_html
  if use_gemini && cfg.gemini_available && !(cfg.gemini_api_key = "") then
    let r := generate_blueprint_gemini cfg env project_idea k
    ⟨animation_html, r.text, r.calls, r.next⟩
  else
    ⟨animation_html, generate_blueprint_demo project_idea, [], k⟩

/-- Test environment: the genai client constructs and every call succeeds
with a fixed text; used to instantiate theorems at concrete inputs. -/
def envConst : Env :=
  ⟨Except.ok (), fun _ _ _ => Except.ok "CONST TEXT"⟩

/-- Test environment: the first call (number 0) raises, every later call
succeeds; instantiates the first-fails-second-succeeds scenario. -/
def envSecondOk : Env :=
  ⟨Except.ok (), fun k _ _ => if k = 0 then Except.error "flash down" else Except.ok "PRO TEXT"⟩

/-- Test environment: every call raises, with the call number in the
message so the two failures are distinguishable. -/
def envAllFail : Env :=
  ⟨Except.ok (), fun k _ _ => if k = 0 then Except.error "E0" else Except.error "E1"⟩

/-- Test environment that behaves like envConst on every non-empty prompt
but differently on the empty prompt; used to instantiate the statement that
only the values at the actual prompt matter. -/
def envTwin : Env :=
  ⟨Except.ok (), fun _ _ p => if p = "" then Except.error "never" else Except.ok "CONST TEXT"⟩

/-- Two environments whose calls agree on a given prompt for the models of a
list produce the same loop result on that list. -/
theorem tryModels_congr (env1 env2 : Env) (p : String) (names : List String)
    (h : ∀ i m, m ∈ names → env1.call i m p = env2.call i m p) :
    ∀ k le, tryModels env1 p names k le = tryModels env2 p names k le := by
  induction names with
  | nil => intro k le; rfl
  | cons m rest ih =>
    intro k le
    simp only [tryModels]
    rw [h k m (List.mem_cons_self m rest)]
    cases env2.call k m p with
    | ok t => rfl
    | error e =>
      dsimp only
      rw [ih (fun i m' hm' => h i m' (List.mem_cons_of_mem m hm'))]

/-- When the environment answers independently of the call number, the loop
result is independent of the starting call number, except for the final
counter value. -/
theorem tryModels_shift (env : Env) (hstat : ∀ i j m p, env.call i m p = env.call j m p)
    (p : String) (names : List String) :
    ∀ k1 k2 le,
      (tryModels env p names k1 le).response = (tryModels env p names k2 le).response ∧
      (tryModels env p names k1 le).last_error = (tryModels env p names k2 le).last_error ∧
      (tryModels env p names k1 le).calls = (tryModels env p names k2 le).calls := by
  induction names with
  | nil => intro k1 k2 le; exact ⟨rfl, rfl, rfl⟩
  | cons m rest ih =>
    intro k1 k2 le
    simp only [tryModels]
    rw [hstat k1 k2 m p]
    cases env.call k2 m p with
    | ok t => exact ⟨rfl, rfl, rfl⟩
    | error e =>
      obtain ⟨h1, h2, h3⟩ := ih (k1 + 1) (k2 + 1) (some e)
      exact ⟨h1, h2, by dsimp only; rw [h3]⟩

/-- A call-number-independent environment makes generate_blueprint_gemini
produce the same document and call trace from any starting call number. -/
theorem generate_shift (cfg : Config) (env : Env)
    (hstat : ∀ i j m p, env.call i m p = env.call j m p) (s : String) (k1 k2 : Nat) :
    (generate_blueprint_gemini cfg env s k1).text = (generate_blueprint_gemini cfg env s k2).text ∧
    (generate_blueprint_gemini cfg env s k1).calls = (generate_blueprint_gemini cfg env s k2).calls := by
  unfold generate_blueprint_gemini
  cases hb : cfg.gemini_available with
  | false => exact ⟨rfl, rfl⟩
  | true =>
    by_cases hk : cfg.gemini_api_key = ""
    · simp only [hk, Bool.not_true, if_true, if_false, ite_true, ite_false, reduceIte]
      exact ⟨rfl, rfl⟩
    · simp only [hk, Bool.not_true, ite_false, reduceIte]
      cases hcl : env.client with
      | error e => exact ⟨rfl, rfl⟩
      | ok u =>
        obtain ⟨h1, h2, h3⟩ :=
          tryModels_shift env hstat (gemini_prompt s) model_names k1 k2 none
        cases hr2 : (tryModels env (gemini_prompt s) model_names k2 none).response with
        | some t =>
          have hr1 := h1.trans hr2
          simp only [hr1, hr2, h3]
          exact ⟨rfl, rfl⟩
        | none =>
          have hr1 := h1.trans hr2
          simp only [hr1, hr2, h2, h3]
          exact ⟨rfl, rfl⟩

/-- C3: compose(s, false) carries the literal "Project Blueprint: " followed
by the placeholder title "Your Dream Project" when the stripped idea is
empty, and otherwise by exactly the first 50 characters of the stripped
idea, with nothing added. -/
theorem C3_template_title (s : String) :
    (pyStrip s = "" →
      generate_blueprint_demo s =
        "\n# " ++ ("Project Blueprint: " ++ ("Your Dream Project" ++ DEMO_BLUEPRINT_POST)))
    ∧ (pyStrip s ≠ "" →
      generate_blueprint_demo s =
        "\n# " ++ ("Project Blueprint: " ++ (pyTake (pyStrip s) 50 ++ DEMO_BLUEPRINT_POST))) := by
  have hpre : DEMO_BLUEPRINT_PRE = "\n# " ++ "Project Blueprint: " := by decide
  constructor
  · intro h
    simp only [generate_blueprint_demo, h, ite_true, reduceIte, hpre, String.append_assoc]
  · intro h
    simp only [generate_blueprint_demo, h, ite_false, reduceIte, hpre, String.append_assoc]

/-- C3 witness: the empty idea gives the placeholder title, and an
80-character idea gives exactly its first 50 characters. -/
theorem C3_template_title_witness :
    generate_blueprint_demo "" =
      "\n# " ++ ("Project Blueprint: " ++ ("Your Dream Project" ++ DEMO_BLUEPRINT_POST))
    ∧ generate_blueprint_demo
        "abcdefghijklmnopqrstuvwxyz0123456789ABCDEFGHIJKLMNOPQRSTUVWXYZ0123456789abcdefg" =
      "\n# " ++ ("Project Blueprint: " ++
        (pyTake (pyStrip
          "abcdefghijklmnopqrstuvwxyz0123456789ABCDEFGHIJKLMNOPQRSTUVWXYZ0123456789abcdefg") 50
          ++ DEMO_BLUEPRINT_POST)) :=
  ⟨(C3_template_title "").1 (by decide),
   (C3_template_title
      "abcdefghijklmnopqrstuvwxyz0123456789ABCDEFGHIJKLMNOPQRSTUVWXYZ0123456789abcdefg").2
      (by decide)⟩

/-- C6: with the remote flag false, process_project returns the template
document, performs no remote call (empty call trace) and leaves the call
counter untouched. -/
theorem C6_template_mode_no_calls (cfg : Config) (env : Env) (s : String) (k : Nat) :
    process_project cfg env s false k =
      ⟨generate_animation_html, generate_blueprint_demo s, [], k⟩ := by
  simp [process_project]

/-- C8: the animation artifact returned by process_project is the same fixed
string for every idea, mode flag, configuration and remote behavior. -/
theorem C8_animation_constant (cfg : Config) (env : Env) (s : String) (b : Bool) (k : Nat) :
    (process_project cfg env s b k).animation_html = generate_animation_html := by
  unfold process_project
  split <;> rfl

/-- A document that interpolates the demo template is longer than either of
the short precondition messages, so it can never occur inside one. -/
theorem demo_not_contained (s msg : String)
    (hlen : msg.length < DEMO_BLUEPRINT_PRE.length + DEMO_BLUEPRINT_POST.length) :
    ¬ List.IsInfix (generate_blueprint_demo s).data msg.data := by
  intro h
  have h1 : (generate_blueprint_demo s).data.length ≤ msg.data.length := h.length_le
  have h2 : (generate_blueprint_demo s).length =
      DEMO_BLUEPRINT_PRE.length
        + (if pyStrip s = "" then ("Your Dream Project" : String)
            else pyTake (pyStrip s) 50).length
        + DEMO_BLUEPRINT_POST.length := by
    simp [generate_blueprint_demo, String.length_append]
  have h3 : (generate_blueprint_demo s).data.length = (generate_blueprint_demo s).length := rfl
  have h4 : msg.data.length = msg.length := rfl
  rw [h3, h4, h2] at h1
  omega

/-- C1: with the remote path configured, the candidates are tried strictly
in the order gemini-1.5-flash then gemini-1.5-pro; a first-candidate success
is returned verbatim after exactly one call, and a second-candidate success
after a first-candidate failure is returned verbatim after exactly two
calls, in order. -/
theorem C1_candidates_in_order (cfg : Config) (env : Env) (s : String)
    (ha : cfg.gemini_available = true) (hk : cfg.gemini_api_key ≠ "")
    (hc : env.client = Except.ok ()) :
    (∀ t, env.call 0 "gemini-1.5-flash" (gemini_prompt s) = Except.ok t →
      generate_blueprint_gemini cfg env s 0 = ⟨t, ["gemini-1.5-flash"], 1⟩)
    ∧ (∀ e t, env.call 0 "gemini-1.5-flash" (gemini_prompt s) = Except.error e →
      env.call 1 "gemini-1.5-pro" (gemini_prompt s) = Except.ok t →
      generate_blueprint_gemini cfg env s 0 =
        ⟨t, ["gemini-1.5-flash", "gemini-1.5-pro"], 2⟩) := by
  constructor
  · intro t h0
    simp [generate_blueprint_gemini, ha, hk, hc, model_names, tryModels, h0]
  · intro e t h0 h1
    simp [generate_blueprint_gemini, ha, hk, hc, model_names, tryModels, h0, h1]

/-- C1 witness: a first-candidate success returns its text after one call;
a first-candidate failure followed by a second-candidate success returns the
second text after two calls. -/
theorem C1_candidates_in_order_witness :
    generate_blueprint_gemini ⟨true, "key"⟩ envConst "demo idea" 0 =
      ⟨"CONST TEXT", ["gemini-1.5-flash"], 1⟩
    ∧ generate_blueprint_gemini ⟨true, "key"⟩ envSecondOk "demo idea" 0 =
      ⟨"PRO TEXT", ["gemini-1.5-flash", "gemini-1.5-pro"], 2⟩ :=
  ⟨(C1_candidates_in_order ⟨true, "key"⟩ envConst "demo idea" rfl (by decide) rfl).1
      "CONST TEXT" rfl,
    (C1_candidates_in_order ⟨true, "key"⟩ envSecondOk "demo idea" rfl (by decide) rfl).2
      "flash down" "PRO TEXT" rfl rfl⟩

/-- C2: when every candidate fails, the returned document is the failure
notice embedding the last candidate's error message followed by the full
demo template, after both candidates were called in order. -/
theorem C2_all_fail_fallback (cfg : Config) (env : Env) (s e1 e2 : String)
    (ha : cfg.gemini_available = true) (hk : cfg.gemini_api_key ≠ "")
    (hc : env.client = Except.ok ())
    (h0 : env.call 0 "gemini-1.5-flash" (gemini_prompt s) = Except.error e1)
    (h1 : env.call 1 "gemini-1.5-pro" (gemini_prompt s) = Except.error e2) :
    generate_blueprint_gemini cfg env s 0 =
      ⟨"❌ No available Gemini models found or generation failed. Last error: " ++ e2
          ++ "\n\n💡 Tip: Check your API key and quota."
          ++ "\n\nFalling back to demo mode...\n\n"
          ++ generate_blueprint_demo s,
        ["gemini-1.5-flash", "gemini-1.5-pro"], 2⟩
    ∧ ∃ notice, (generate_blueprint_gemini cfg env s 0).text
        = notice ++ generate_blueprint_demo s := by
  have heq : generate_blueprint_gemini cfg env s 0 =
      ⟨"❌ No available Gemini models found or generation failed. Last error: " ++ e2
          ++ "\n\n💡 Tip: Check your API key and quota."
          ++ "\n\nFalling back to demo mode...\n\n"
          ++ generate_blueprint_demo s,
        ["gemini-1.5-flash", "gemini-1.5-pro"], 2⟩ := by
    simp [generate_blueprint_gemini, ha, hk, hc, model_names, tryModels, h0, h1, pyStr]
  refine ⟨heq, "❌ No available Gemini models found or generation failed. Last error: "
      ++ e2 ++ "\n\n💡 Tip: Check your API key and quota."
      ++ "\n\nFalling back to demo mode...\n\n", ?_⟩
  rw [heq]

/-- C2 witness: with both injected failures the document is the notice
embedding the second error followed by the full demo template. -/
theorem C2_all_fail_fallback_witness :
    generate_blueprint_gemini ⟨true, "key"⟩ envAllFail "demo idea" 0 =
      ⟨"❌ No available Gemini models found or generation failed. Last error: " ++ "E1"
          ++ "\n\n💡 Tip: Check your API key and quota."
          ++ "\n\nFalling back to demo mode...\n\n"
          ++ generate_blueprint_demo "demo idea",
        ["gemini-1.5-flash", "gemini-1.5-pro"], 2⟩ :=
  (C2_all_fail_fallback ⟨true, "key"⟩ envAllFail "demo idea" "E0" "E1"
      rfl (by decide) rfl rfl rfl).1

/-- C4: when the remote capability is unconfigured (library unavailable or
key empty), the remote-flagged call is identical to the template-mode call
and performs no remote call. -/
theorem C4_unconfigured_template (cfg : Config) (env : Env) (s : String) (k : Nat)
    (h : cfg.gemini_available = false ∨ cfg.gemini_api_key = "") :
    process_project cfg env s true k = process_project cfg env s false k
    ∧ (process_project cfg env s true k).calls = [] := by
  have hn : ¬((true && cfg.gemini_available && !decide (cfg.gemini_api_key = "")) = true) := by
    intro hgt
    cases h with
    | inl h => rw [h] at hgt; simp at hgt
    | inr h => rw [h] at hgt; simp at hgt
  have hn' : ¬((false && cfg.gemini_available && !decide (cfg.gemini_api_key = "")) = true) := by
    simp
  constructor
  · simp only [process_project]
    rw [if_neg hn, if_neg hn']
  · simp only [process_project]
    rw [if_neg hn]

/-- C4 witness: with the library unavailable, the remote-flagged call equals
the template-mode call and makes no remote call. -/
theorem C4_unconfigured_template_witness :
    process_project ⟨false, "key"⟩ envConst "x" true 0 =
      process_project ⟨false, "key"⟩ envConst "x" false 0
    ∧ (process_project ⟨false, "key"⟩ envConst "x" true 0).calls = [] :=
  C4_unconfigured_template ⟨false, "key"⟩ envConst "x" 0 (Or.inl rfl)

/-- C5: for every configuration, environment behavior, idea and mode the
blueprint returned by process_project is a usable document: the plain demo
template, the verbatim text of a successful remote call, or fallback text
ending in the full demo template; no error value ever escapes. -/
theorem C5_always_usable (cfg : Config) (env : Env) (s : String) (b : Bool) (k : Nat) :
    (process_project cfg env s b k).blueprint = generate_blueprint_demo s
    ∨ (∃ i m t, env.call i m (gemini_prompt s) = Except.ok t
        ∧ (process_project cfg env s b k).blueprint = t)
    ∨ (∃ notice, (process_project cfg env s b k).blueprint
        = notice ++ generate_blueprint_demo s) := by
  by_cases hg : (b && cfg.gemini_available && !decide (cfg.gemini_api_key = "")) = true
  · have hb : cfg.gemini_available = true := by
      cases hA : cfg.gemini_available
      · rw [hA] at hg; simp at hg
      · rfl
    have hkey : ¬(cfg.gemini_api_key = "") := by
      intro hkk
      rw [hkk] at hg; simp at hg
    have hbp : (process_project cfg env s b k).blueprint
        = (generate_blueprint_gemini cfg env s k).text := by
      simp only [process_project]
      rw [if_pos hg]
    rw [hbp]
    cases hcl : env.client with
    | error e =>
      right; right
      refine ⟨"❌ Error generating blueprint: " ++ e ++ "\n\nFalling back to demo mode...\n\n", ?_⟩
      simp [generate_blueprint_gemini, hb, hkey, hcl, String.append_assoc]
    | ok u =>
      cases h0 : env.call k "gemini-1.5-flash" (gemini_prompt s) with
      | ok t =>
        right; left
        refine ⟨k, "gemini-1.5-flash", t, h0, ?_⟩
        simp [generate_blueprint_gemini, hb, hkey, hcl, model_names, tryModels, h0]
      | error e1 =>
        cases h1 : env.call (k + 1) "gemini-1.5-pro" (gemini_prompt s) with
        | ok t =>
          right; left
          refine ⟨k + 1, "gemini-1.5-pro", t, h1, ?_⟩
          simp [generate_blueprint_gemini, hb, hkey, hcl, model_names, tryModels, h0, h1]
        | error e2 =>
          right; right
          refine ⟨"❌ No available Gemini models found or generation failed. Last error: "
              ++ e2 ++ "\n\n💡 Tip: Check your API key and quota."
              ++ "\n\nFalling back to demo mode...\n\n", ?_⟩
          simp [generate_blueprint_gemini, hb, hkey, hcl, model_names, tryModels, h0, h1,
            pyStr, String.append_assoc]
  · left
    simp only [process_project]
    rw [if_neg hg]

/-- C7: the prompt forwarded to the remote service embeds the idea verbatim
(no stripping, no truncation), and the generated result depends on the
environment only through its answers at exactly that prompt. -/
theorem C7_prompt_verbatim (s : String) :
    gemini_prompt s =
      "Create a concise full-stack project blueprint for: " ++ s ++ GEMINI_PROMPT_SUF
    ∧ (∀ cfg (env1 env2 : Env) k, env1.client = env2.client →
        (∀ i m, m ∈ model_names →
          env1.call i m (gemini_prompt s) = env2.call i m (gemini_prompt s)) →
        generate_blueprint_gemini cfg env1 s k = generate_blueprint_gemini cfg env2 s k) := by
  refine ⟨rfl, ?_⟩
  intro cfg env1 env2 k hcl hcall
  unfold generate_blueprint_gemini
  rw [hcl, tryModels_congr env1 env2 (gemini_prompt s) model_names hcall k none]

/-- C7 witness: two environments that agree at the forwarded prompt (but not
on the empty prompt) generate the same document. -/
theorem C7_prompt_verbatim_witness :
    generate_blueprint_gemini ⟨true, "key"⟩ envConst "my idea" 0 =
      generate_blueprint_gemini ⟨true, "key"⟩ envTwin "my idea" 0 :=
  (C7_prompt_verbatim "my idea").2 ⟨true, "key"⟩ envConst envTwin 0 rfl
    (fun i m _ => by
      show Except.ok "CONST TEXT" = if gemini_prompt "my idea" = "" then Except.error "never"
        else Except.ok "CONST TEXT"
      rw [if_neg (by decide : ¬(gemini_prompt "my idea" = ""))])

/-- C9: with configuration fixed and an environment whose answers do not
depend on the call number (unchanged candidate behavior), running
process_project a second time, starting from the call counter the first run
ended with, returns byte-identical animation, blueprint and call trace. -/
theorem C9_idempotent (cfg : Config) (env : Env) (s : String) (b : Bool)
    (hstat : ∀ i j m p, env.call i m p = env.call j m p) :
    (process_project cfg env s b ((process_project cfg env s b 0).next)).animation_html
        = (process_project cfg env s b 0).animation_html
    ∧ (process_project cfg env s b ((process_project cfg env s b 0).next)).blueprint
        = (process_project cfg env s b 0).blueprint
    ∧ (process_project cfg env s b ((process_project cfg env s b 0).next)).calls
        = (process_project cfg env s b 0).calls := by
  have key : ∀ k1 k2 : Nat,
      (process_project cfg env s b k1).animation_html
          = (process_project cfg env s b k2).animation_html
      ∧ (process_project cfg env s b k1).blueprint = (process_project cfg env s b k2).blueprint
      ∧ (process_project cfg env s b k1).calls = (process_project cfg env s b k2).calls := by
    intro k1 k2
    simp only [process_project]
    by_cases hg : (b && cfg.gemini_available && !decide (cfg.gemini_api_key = "")) = true
    · rw [if_pos hg, if_pos hg]
      obtain ⟨h1, h2⟩ := generate_shift cfg env hstat s k1 k2
      exact ⟨rfl, h1, h2⟩
    · rw [if_neg hg, if_neg hg]
      exact ⟨rfl, rfl, rfl⟩
  exact key _ 0

/-- C9 witness: with a call-number-independent environment the second
consecutive run returns the same animation, blueprint and call trace. -/
theorem C9_idempotent_witness :
    (process_project ⟨true, "key"⟩ envConst "x" true
        ((process_project ⟨true, "key"⟩ envConst "x" true 0).next)).animation_html
      = (process_project ⟨true, "key"⟩ envConst "x" true 0).animation_html
    ∧ (process_project ⟨true, "key"⟩ envConst "x" true
        ((process_project ⟨true, "key"⟩ envConst "x" true 0).next)).blueprint
      = (process_project ⟨true, "key"⟩ envConst "x" true 0).blueprint
    ∧ (process_project ⟨true, "key"⟩ envConst "x" true
        ((process_project ⟨true, "key"⟩ envConst "x" true 0).next)).calls
      = (process_project ⟨true, "key"⟩ envConst "x" true 0).calls :=
  C9_idempotent ⟨true, "key"⟩ envConst "x" true (fun _ _ _ _ => rfl)

/-- C10: generate_blueprint_gemini invoked directly with the library
unavailable, or with the library available but the key empty, returns only
the corresponding short fixed message, with no remote call; and neither
message can contain the demo template document. -/
theorem C10_precondition_messages (cfg : Config) (env : Env) (s : String) (k : Nat) :
    (cfg.gemini_available = false →
      generate_blueprint_gemini cfg env s k =
        ⟨"❌ Gemini API not available. Install google-genai package.", [], k⟩)
    ∧ (cfg.gemini_available = true → cfg.gemini_api_key = "" →
      generate_blueprint_gemini cfg env s k =
        ⟨"❌ GEMINI_API_KEY not set. Please configure it in Hugging Face Spaces secrets.", [], k⟩)
    ∧ ¬ List.IsInfix (generate_blueprint_demo s).data
        "❌ Gemini API not available. Install google-genai package.".data
    ∧ ¬ List.IsInfix (generate_blueprint_demo s).data
        "❌ GEMINI_API_KEY not set. Please configure it in Hugging Face Spaces secrets.".data := by
  refine ⟨?_, ?_, ?_, ?_⟩
  · intro h
    simp [generate_blueprint_gemini, h]
  · intro ha hkey
    simp [generate_blueprint_gemini, ha, hkey]
  · exact demo_not_contained s _ (by decide)
  · exact demo_not_contained s _ (by decide)

/-- C10 witness: both precondition failures return exactly their short
message and make no remote call. -/
theorem C10_precondition_messages_witness :
    generate_blueprint_gemini ⟨false, ""⟩ envConst "x" 0 =
      ⟨"❌ Gemini API not available. Install google-genai package.", [], 0⟩
    ∧ generate_blueprint_gemini ⟨true, ""⟩ envConst "x" 0 =
      ⟨"❌ GEMINI_API_KEY not set. Please configure it in Hugging Face Spaces secrets.", [], 0⟩ :=
  ⟨(C10_precondition_messages ⟨false, ""⟩ envConst "x" 0).1 rfl,
    (C10_precondition_messages ⟨true, ""⟩ envConst "x" 0).2.1 rfl rfl⟩

end AppbuildHug
